import Mathlib

/-!
Shallow embedding of `src/server.py` of docker-volume-image: the persistent
volume registry (class `volumeDB`), mount-path resolution (`getVolume`,
`getVolumePath`) and the in-memory cores of the create and remove routes.

The JSON library and the Docker daemon are external collaborators and are
modelled by their contracts: `json.load` returns the encoded mapping of a
valid encoding and raises on anything else; the daemon is a function from an
image reference to an optional upper-layer path, `none` meaning
`docker.errors.ImageNotFound`.
-/

/-- A stored volume record, the Python dict with keys `image` and `path`.
`path = none` models the `path` key being absent from the dict;
`path = some none` models the key present holding `None` (as `volumeCreate`
always stores it); `path = some (some s)` models a string value. -/
structure VolumeRecord where
  image : String
  path : Option (Option String)
deriving Repr, DecidableEq

/-- The in-memory volume database: a finite mapping from volume names to
records, embedded as an association list. `List.lookup name m` is the Python
indexing `volumes[name]`. -/
abbrev Registry := List (String × VolumeRecord)

/-- The failure modes of the core, named after the spec taxonomy.
`corruptRegistry` is the `json` decode error escaping `volumeDB.__enter__`,
`volumeNotFound` is `VolumeNotFoundError`, `imageNotFound` is
`docker.errors.ImageNotFound`. -/
inductive VolError where
  | volumeNotFound
  | imageNotFound
  | corruptRegistry
deriving Repr, DecidableEq

/-- The backing-store file as `volumeDB` can observe it: missing, existing but
zero-length, holding a valid JSON encoding of a registry (exactly what
`json.dump` writes and `json.load` accepts), or holding non-empty contents on
which `json.load` raises. -/
inductive FileContent where
  | missing
  | empty
  | valid (m : Registry)
  | malformed
deriving Repr, DecidableEq

namespace volumeDB

/-- The check `os.path.exists(self._file)` in `volumeDB.__enter__`. -/
def fileExists : FileContent → Bool
  | .missing => false
  | _ => true

/-- The check `os.fstat(self.fh.fileno()).st_size > 0` in
`volumeDB.__enter__`: zero-length only for an empty file; both a valid dump
(at least two bytes) and malformed contents are non-empty. -/
def sizePos : FileContent → Bool
  | .valid _ => true
  | .malformed => true
  | _ => false

/-- Effect of `self.acquire()` on the file itself: for write access the file
is opened in mode a+, which creates a missing file as a zero-length one; read
access opens an existing file unchanged. -/
def acquireEffect (writable : Bool) : FileContent → FileContent
  | .missing => if writable then .empty else .missing
  | fc => fc

/-- Contract of `json.load(self.fh)` on a non-empty file: the encoded mapping
for a valid encoding, a decode error otherwise. -/
def jsonLoad : FileContent → Except VolError Registry
  | .valid m => .ok m
  | _ => .error .corruptRegistry

/-- `volumeDB.__enter__`: when the file exists or the handle is writable,
acquire the lock (creating the file for write access) and, only when the file
is non-empty, parse it with `json.load`; otherwise the initial empty dict
`self._data` is returned. -/
def enter (writable : Bool) (fc : FileContent) : Except VolError Registry :=
  if fileExists fc || writable then
    let fc2 := acquireEffect writable fc
    if sizePos fc2 then jsonLoad fc2 else .ok []
  else .ok []

/-- `cleanupDict` applied to one record: the `path` key is deleted when its
value is `None`; the `image` key holds a string and is never deleted. -/
def cleanupRecord (r : VolumeRecord) : VolumeRecord :=
  { image := r.image
    path := match r.path with
      | some none => none
      | p => p }

/-- `cleanupDict` applied to the whole database before `json.dump`: it
recurses into every value; the top-level values are dicts and never `None`,
so no name is ever deleted. -/
def cleanupDict (m : Registry) : Registry :=
  m.map (fun nr => (nr.1, cleanupRecord nr.2))

/-- `volumeDB.__exit__`: only a writable handle leaving without an exception
seeks, truncates and dumps the cleaned-up database; every other exit leaves
the file as it is. -/
def exitFile (writable exc : Bool) (data : Registry) (fc : FileContent) : FileContent :=
  if writable && !exc then .valid (cleanupDict data) else fc

/-- One whole `with volumeDB(writable) as volumes:` scope whose body replaces
the database by `f volumes` and raises iff `exc`: the resulting file contents.
When `__enter__` itself raises, the body and `__exit__` never run and the file
keeps whatever the lock acquisition left behind. -/
def scope (writable exc : Bool) (f : Registry → Registry) (fc : FileContent) : FileContent :=
  match enter writable fc with
  | .error _ => acquireEffect writable fc
  | .ok m => exitFile writable exc (f m) (acquireEffect writable fc)

end volumeDB

/-- The access `vol.get(path)`: `None` both when the key is absent and when
it is present holding `None`. -/
def VolumeRecord.getPath (r : VolumeRecord) : Option String :=
  match r.path with
  | some (some s) => some s
  | _ => none

/-- The helper `imageName` inside `volumeCreate`: append the default tag
exactly when no colon occurs anywhere in the image reference, transcribing the
Python index of the two-element list by the negated containment test. -/
def imageName (image : String) : String :=
  if ':' ∈ image.data then image else image ++ ":latest"

/-- The body of the remove route inside its write scope:
`volumes.pop(volName, None)` removes the key when present and is silent
otherwise. -/
def volumeRemove (name : String) (m : Registry) : Registry :=
  m.filter (fun nr => nr.1 != name)

/-- The body of the create route inside its write scope: a plain dict
assignment `volumes[name] = ...` storing `imageName image` and the request
path verbatim; it overwrites any existing entry, and the `path` key is always
present, holding `None` when the request carried none. -/
def volumeCreate (name image : String) (path : Option String) (m : Registry) : Registry :=
  (name, { image := imageName image, path := some path }) :: volumeRemove name m

/-- A client-visible mutation of the registry. -/
inductive Op where
  | create (name image : String) (path : Option String)
  | remove (name : String)

/-- Apply one mutation to the in-memory registry. -/
def applyOp (m : Registry) : Op → Registry
  | .create n i p => volumeCreate n i p m
  | .remove n => volumeRemove n m

/-- Apply a sequence of mutations to the in-memory registry. -/
def applyOps (m : Registry) (ops : List Op) : Registry :=
  ops.foldl applyOp m

/-- `getVolume`: open a read scope, index the database with the volume name;
a `KeyError` becomes `VolumeNotFoundError`, and a decode error raised by
`__enter__` propagates as it is. -/
def getVolume (fc : FileContent) (name : String) : Except VolError VolumeRecord :=
  match volumeDB.enter false fc with
  | .error e => .error e
  | .ok m =>
    match m.lookup name with
    | some v => .ok v
    | none => .error .volumeNotFound

/-- The conditional expression appended to the image path: the separator plus
the sub-path when it is a non-empty string, nothing otherwise. -/
def pathSuffix : Option String → String
  | some p => if p = "" then "" else "/" ++ p
  | none => ""

/-- `getVolumePath(name, supress)`: look the volume up, resolve its stored
image through the daemon and append the optional sub-path. The surrounding
`contextlib.suppress` catches exactly `docker.errors.ImageNotFound`, and only
when `supress` is set; a suppressed call returns `None`, modelled `.ok none`. -/
def getVolumePath (fc : FileContent) (resolve : String → Option String)
    (name : String) (supress : Bool) : Except VolError (Option String) :=
  match getVolume fc name with
  | .error e => .error e
  | .ok vol =>
    match resolve vol.image with
    | none => if supress then .ok none else .error .imageNotFound
    | some imgPath => .ok (some (imgPath ++ pathSuffix vol.getPath))

/-- A path string is relative when it does not start with the separator; used
to state the spec invariant — the source never checks this. -/
def isRelativePath (s : String) : Bool :=
  match s.data with
  | [] => true
  | c :: _ => c != '/'

/-- Two records are semantically identical when they agree on the image and on
`vol.get(path)` — the only two observations the source makes of a record. -/
def recEquiv (r s : VolumeRecord) : Prop :=
  r.image = s.image ∧ r.getPath = s.getPath

/-- Every record of the registry carries a colon somewhere in its image
reference. -/
def taggedInv (m : Registry) : Prop :=
  ∀ nr ∈ m, ':' ∈ nr.2.image.data

/-! ## Helper lemmas -/

/-- The image stored by the create route always contains a colon. -/
theorem colon_mem_imageName (i : String) : ':' ∈ (imageName i).data := by
  unfold imageName
  by_cases h : ':' ∈ i.data
  · rw [if_pos h]; exact h
  · rw [if_neg h, String.data_append]
    exact List.mem_append_right _ (by decide)

theorem lookup_cons_self (n : String) (r : VolumeRecord) (t : Registry) :
    List.lookup n ((n, r) :: t) = some r := by
  simp [List.lookup]

theorem lookup_cons_ne (n k : String) (r : VolumeRecord) (t : Registry) (h : n ≠ k) :
    List.lookup n ((k, r) :: t) = List.lookup n t := by
  have hb : (n == k) = false := beq_false_of_ne h
  simp [List.lookup, hb]

/-- Removing one name leaves the lookup of every other name unchanged. -/
theorem lookup_volumeRemove (n k : String) (m : Registry) (h : n ≠ k) :
    List.lookup n (volumeRemove k m) = List.lookup n m := by
  induction m with
  | nil => rfl
  | cons hd t ih =>
    obtain ⟨k2, r⟩ := hd
    unfold volumeRemove at ih ⊢
    by_cases hk : k2 = k
    · subst hk
      rw [List.filter_cons_of_neg (by simp), ih, lookup_cons_ne n k2 r t h]
    · rw [List.filter_cons_of_pos (by simpa using hk)]
      by_cases hn : n = k2
      · subst hn
        rw [lookup_cons_self, lookup_cons_self]
      · rw [lookup_cons_ne n k2 _ _ hn, lookup_cons_ne n k2 r t hn, ih]

/-- The create route stores exactly the normalized image and the verbatim
request path under the requested name. -/
theorem lookup_volumeCreate_self (m : Registry) (n i : String) (p : Option String) :
    List.lookup n (volumeCreate n i p m) = some ⟨imageName i, some p⟩ :=
  lookup_cons_self n _ _

/-- The create route leaves the lookup of every other name unchanged. -/
theorem lookup_volumeCreate_ne (m : Registry) (n n2 i : String) (p : Option String)
    (h : n2 ≠ n) :
    List.lookup n2 (volumeCreate n i p m) = List.lookup n2 m := by
  unfold volumeCreate
  rw [lookup_cons_ne _ _ _ _ h, lookup_volumeRemove _ _ _ h]

/-- Cleaning up the database before the dump rewrites each record pointwise. -/
theorem lookup_cleanupDict (n : String) (m : Registry) :
    List.lookup n (volumeDB.cleanupDict m) =
      (List.lookup n m).map volumeDB.cleanupRecord := by
  induction m with
  | nil => rfl
  | cons hd t ih =>
    obtain ⟨k, r⟩ := hd
    unfold volumeDB.cleanupDict at ih ⊢
    rw [List.map_cons]
    by_cases hn : n = k
    · subst hn
      rw [lookup_cons_self, lookup_cons_self]
      rfl
    · rw [lookup_cons_ne _ _ _ _ hn, lookup_cons_ne _ _ _ _ hn, ih]

/-- Deleting a None-valued path key does not change what `vol.get(path)`
observes. -/
theorem getPath_cleanupRecord (r : VolumeRecord) :
    (volumeDB.cleanupRecord r).getPath = r.getPath := by
  obtain ⟨i, p⟩ := r
  cases p with
  | none => rfl
  | some q =>
    cases q with
    | none => rfl
    | some s => rfl

/-- One mutation preserves the tagged-image invariant. -/
theorem taggedInv_applyOp (m : Registry) (op : Op) (h : taggedInv m) :
    taggedInv (applyOp m op) := by
  cases op with
  | create n i p =>
    intro nr hnr
    simp only [applyOp, volumeCreate, volumeRemove] at hnr
    rcases List.mem_cons.mp hnr with heq | hmem
    · subst heq; exact colon_mem_imageName i
    · exact h nr (List.mem_of_mem_filter hmem)
  | remove n =>
    intro nr hnr
    simp only [applyOp, volumeRemove] at hnr
    exact h nr (List.mem_of_mem_filter hnr)

/-- Any sequence of mutations preserves the tagged-image invariant. -/
theorem taggedInv_applyOps (m : Registry) (ops : List Op) (h : taggedInv m) :
    taggedInv (applyOps m ops) := by
  induction ops generalizing m with
  | nil => exact h
  | cons op t ih =>
    unfold applyOps at ih ⊢
    rw [List.foldl_cons]
    exact ih _ (taggedInv_applyOp m op h)

/-- A read-mode lock acquisition never touches the file. -/
theorem acquireEffect_read (fc : FileContent) : volumeDB.acquireEffect false fc = fc := by
  cases fc <;> rfl

/-! ## Claim theorems -/

/-- C1, counterexample: opening the registry over a zero-length backing file
does not fail — it returns the empty mapping, because `__enter__` parses the
file only when its size is positive. -/
theorem C1_counterexample :
    volumeDB.enter false FileContent.empty = Except.ok [] ∧
      volumeDB.enter false FileContent.empty ≠ Except.error VolError.corruptRegistry := by
  refine ⟨rfl, ?_⟩
  intro h
  rw [show volumeDB.enter false FileContent.empty = Except.ok [] from rfl] at h
  exact Except.noConfusion h

/-- C1, amended: a non-empty backing file whose contents `json.load` cannot
decode makes the next open (in either mode) fail with the corrupt-registry
error and no mapping is returned; a zero-length file, however, is loaded as
the empty registry. -/
theorem C1_amended_thm (w : Bool) :
    volumeDB.enter w FileContent.malformed = Except.error VolError.corruptRegistry ∧
      volumeDB.enter w FileContent.empty = Except.ok [] := by
  cases w <;> exact ⟨rfl, rfl⟩

/-- C2, counterexample: the create route stores the request path verbatim —
an absolute path and even an empty string are stored as they came, so a
stored path need be neither relative nor non-empty. -/
theorem C2_counterexample :
    List.lookup "vol1" (volumeCreate "vol1" "alpine" (some "/etc") []) =
        some ⟨"alpine:latest", some (some "/etc")⟩ ∧
      isRelativePath "/etc" = false ∧
      List.lookup "vol1" (volumeCreate "vol1" "alpine" (some "") []) =
        some ⟨"alpine:latest", some (some "")⟩ := by
  refine ⟨?_, ?_, ?_⟩ <;> decide

/-- C2, amended: after any sequence of create and remove operations from the
empty registry, every stored record has an image reference containing a colon;
the path field, by contrast, is stored verbatim from the create request with
no validation of non-emptiness or relativity. -/
theorem C2_amended_thm :
    (∀ ops : List Op, taggedInv (applyOps [] ops)) ∧
      (∀ (m : Registry) (n i : String) (p : Option String),
        List.lookup n (volumeCreate n i p m) = some ⟨imageName i, some p⟩) := by
  constructor
  · intro ops
    refine taggedInv_applyOps [] ops ?_
    intro nr h
    cases h
  · intro m n i p
    exact lookup_volumeCreate_self m n i p

/-- C2 witness: the record stored by one concrete create carries a colon. -/
theorem C2_amended_witness :
    ':' ∈ (("vol1", (⟨"alpine:latest", some none⟩ : VolumeRecord)) :
        String × VolumeRecord).2.image.data :=
  C2_amended_thm.1 [Op.create "vol1" "alpine" none]
    ("vol1", ⟨"alpine:latest", some none⟩) (by decide)

/-- C3: a name absent from the registry makes `getVolumePath` fail with the
volume-not-found error for both values of the suppression flag — the
suppression catches only the image-not-found error. -/
theorem C3_thm (fc : FileContent) (m : Registry) (resolve : String → Option String)
    (name : String) (supress : Bool)
    (henter : volumeDB.enter false fc = Except.ok m)
    (habsent : List.lookup name m = none) :
    getVolumePath fc resolve name supress = Except.error VolError.volumeNotFound := by
  simp [getVolumePath, getVolume, henter, habsent]

/-- C3 witness: a concrete absent name fails identically under both flags. -/
theorem C3_witness :
    getVolumePath (FileContent.valid []) (fun i => some (i ++ "/upper")) "vol1" true =
        Except.error VolError.volumeNotFound ∧
      getVolumePath (FileContent.valid []) (fun i => some (i ++ "/upper")) "vol1" false =
        Except.error VolError.volumeNotFound :=
  ⟨C3_thm _ [] _ "vol1" true rfl rfl, C3_thm _ [] _ "vol1" false rfl rfl⟩

/-- C4: a registered volume whose image the daemon does not have fails with
the image-not-found error when the flag is off, and returns the Python `None`
(no failure) when the flag is on. -/
theorem C4_thm (fc : FileContent) (m : Registry) (name : String) (vol : VolumeRecord)
    (resolve : String → Option String)
    (henter : volumeDB.enter false fc = Except.ok m)
    (hfound : List.lookup name m = some vol)
    (hmissing : resolve vol.image = none) :
    getVolumePath fc resolve name false = Except.error VolError.imageNotFound ∧
      getVolumePath fc resolve name true = Except.ok none := by
  constructor <;> simp [getVolumePath, getVolume, henter, hfound, hmissing]

/-- C4 witness: one concrete registered volume with an unresolvable image. -/
theorem C4_witness :
    getVolumePath (FileContent.valid [("vol1", ⟨"img:latest", none⟩)])
        (fun _ => none) "vol1" false = Except.error VolError.imageNotFound ∧
      getVolumePath (FileContent.valid [("vol1", ⟨"img:latest", none⟩)])
        (fun _ => none) "vol1" true = Except.ok none :=
  C4_thm _ _ "vol1" ⟨"img:latest", none⟩ _ rfl (by decide) rfl

/-- C5: tag normalization happens exactly once, at create time — the bare
reference gains the default tag, a tagged one is kept, the create route stores
the normalized name, and resolution consults the daemon with the stored image
verbatim, producing the resolved path plus the recorded suffix with no further
normalization. -/
theorem C5_thm :
    imageName "alpine" = "alpine:latest" ∧
      imageName "alpine:3.18" = "alpine:3.18" ∧
      (∀ (m : Registry) (n i : String) (p : Option String),
        List.lookup n (volumeCreate n i p m) = some ⟨imageName i, some p⟩) ∧
      (∀ (fc : FileContent) (m : Registry) (name : String) (vol : VolumeRecord)
          (resolve : String → Option String) (r : String),
        volumeDB.enter false fc = Except.ok m →
        List.lookup name m = some vol →
        resolve vol.image = some r →
        getVolumePath fc resolve name false =
          Except.ok (some (r ++ pathSuffix vol.getPath))) := by
  refine ⟨by decide, by decide, fun m n i p => lookup_volumeCreate_self m n i p, ?_⟩
  intro fc m name vol resolve r henter hfound hres
  simp [getVolumePath, getVolume, henter, hfound, hres]

/-- C5 witness: a stored image that (hypothetically) lacks a tag is passed to
the daemon as it is — the resolver recognizes only the untagged string and
resolution still succeeds, so no second normalization happened. -/
theorem C5_witness :
    getVolumePath (FileContent.valid [("vol1", ⟨"alpine", none⟩)])
        (fun i => if i = "alpine" then some "/up" else none) "vol1" false =
      Except.ok (some ("/up" ++ pathSuffix (VolumeRecord.getPath ⟨"alpine", none⟩))) :=
  C5_thm.2.2.2 (FileContent.valid [("vol1", ⟨"alpine", none⟩)])
    [("vol1", ⟨"alpine", none⟩)] "vol1" ⟨"alpine", none⟩
    (fun i => if i = "alpine" then some "/up" else none) "/up" rfl (by decide) (by decide)

/-- C6: for a record carrying a non-empty relative sub-path the mount path is
the resolved image path, one separator, then the sub-path; for a record with
no path key the mount path is the resolved image path unchanged. -/
theorem C6_thm :
    (∀ (fc : FileContent) (m : Registry) (name : String) (vol : VolumeRecord)
        (resolve : String → Option String) (r p : String),
      volumeDB.enter false fc = Except.ok m →
      List.lookup name m = some vol →
      vol.path = some (some p) → p ≠ "" → isRelativePath p = true →
      resolve vol.image = some r →
      getVolumePath fc resolve name false = Except.ok (some (r ++ "/" ++ p))) ∧
      (∀ (fc : FileContent) (m : Registry) (name : String) (vol : VolumeRecord)
          (resolve : String → Option String) (r : String),
        volumeDB.enter false fc = Except.ok m →
        List.lookup name m = some vol →
        vol.path = none →
        resolve vol.image = some r →
        getVolumePath fc resolve name false = Except.ok (some r)) := by
  constructor
  · intro fc m name vol resolve r p henter hfound hpath hp _ hres
    simp [getVolumePath, getVolume, henter, hfound, hres,
      VolumeRecord.getPath, hpath, pathSuffix, hp, String.append_assoc]
  · intro fc m name vol resolve r henter hfound hpath hres
    simp [getVolumePath, getVolume, henter, hfound, hres,
      VolumeRecord.getPath, hpath, pathSuffix]

/-- C6 witness: the two examples of the spec, evaluated concretely. -/
theorem C6_witness :
    getVolumePath (FileContent.valid [("vol1", ⟨"img:latest", some (some "data")⟩)])
        (fun _ => some "/var/lib/images/abc/upper") "vol1" false =
        Except.ok (some ("/var/lib/images/abc/upper" ++ "/" ++ "data")) ∧
      getVolumePath (FileContent.valid [("vol2", ⟨"img:latest", none⟩)])
        (fun _ => some "/var/lib/images/abc/upper") "vol2" false =
        Except.ok (some "/var/lib/images/abc/upper") :=
  ⟨C6_thm.1 _ _ "vol1" ⟨"img:latest", some (some "data")⟩ _
      "/var/lib/images/abc/upper" "data" rfl (by decide) rfl (by decide) (by decide) rfl,
    C6_thm.2 _ _ "vol2" ⟨"img:latest", none⟩ _
      "/var/lib/images/abc/upper" rfl (by decide) rfl rfl⟩

/-- C7: creating a volume in a write scope, closing it normally and reopening
a read scope returns exactly the cleaned-up form of the created record, and
that form is semantically identical to the created record — dropping the
None-valued path key on write is invisible on read. -/
theorem C7_thm (fc : FileContent) (m0 : Registry) (name img : String) (p : Option String)
    (henter : volumeDB.enter true fc = Except.ok m0) :
    getVolume (volumeDB.scope true false (volumeCreate name img p) fc) name =
        Except.ok (volumeDB.cleanupRecord ⟨imageName img, some p⟩) ∧
      recEquiv (volumeDB.cleanupRecord ⟨imageName img, some p⟩) ⟨imageName img, some p⟩ := by
  constructor
  · have hscope : volumeDB.scope true false (volumeCreate name img p) fc =
        FileContent.valid (volumeDB.cleanupDict (volumeCreate name img p m0)) := by
      unfold volumeDB.scope
      rw [henter]
      rfl
    rw [hscope]
    simp [getVolume, volumeDB.enter, volumeDB.fileExists, volumeDB.sizePos,
      volumeDB.acquireEffect, volumeDB.jsonLoad, lookup_cleanupDict,
      lookup_volumeCreate_self]
  · exact ⟨rfl, getPath_cleanupRecord _⟩

/-- C7 witness: one concrete create on a missing store, reopened and read. -/
theorem C7_witness :
    getVolume (volumeDB.scope true false (volumeCreate "vol1" "alpine" none)
        FileContent.missing) "vol1" =
        Except.ok (volumeDB.cleanupRecord ⟨imageName "alpine", some none⟩) ∧
      recEquiv (volumeDB.cleanupRecord ⟨imageName "alpine", some none⟩)
        ⟨imageName "alpine", some none⟩ :=
  C7_thm FileContent.missing [] "vol1" "alpine" none rfl

/-- C8, counterexample: a write scope opened on a missing backing file and
aborted by an exception still changes the persisted state — opening in mode
a+ created the (empty) file, which survives the abort. -/
theorem C8_counterexample :
    volumeDB.scope true true (fun m => m) FileContent.missing = FileContent.empty ∧
      FileContent.empty ≠ FileContent.missing :=
  ⟨rfl, by decide⟩

/-- C8, amended: closing a read-only scope, or a write scope that exited with
an exception, writes nothing — the close leaves the file exactly as the open
left it; the sole exception to state preservation over the whole scope is
that opening a write scope on a missing file creates it as a zero-length file,
which loads as the empty registry just as the missing file did. -/
theorem C8_amended_thm :
    (∀ (exc : Bool) (f : Registry → Registry) (fc : FileContent),
        volumeDB.scope false exc f fc = fc) ∧
      (∀ (f : Registry → Registry) (fc : FileContent),
        fc ≠ FileContent.missing → volumeDB.scope true true f fc = fc) ∧
      (∀ f : Registry → Registry,
        volumeDB.scope true true f FileContent.missing = FileContent.empty) ∧
      (∀ w : Bool, volumeDB.enter w FileContent.empty = Except.ok [] ∧
        volumeDB.enter w FileContent.missing = Except.ok []) := by
  refine ⟨?_, ?_, fun f => rfl, fun w => by cases w <;> exact ⟨rfl, rfl⟩⟩
  · intro exc f fc
    unfold volumeDB.scope
    cases h : volumeDB.enter false fc with
    | error e => exact acquireEffect_read fc
    | ok m => simp [volumeDB.exitFile, acquireEffect_read fc]
  · intro f fc hfc
    have hacq : volumeDB.acquireEffect true fc = fc := by
      cases fc with
      | missing => exact absurd rfl hfc
      | empty => rfl
      | valid m => rfl
      | malformed => rfl
    unfold volumeDB.scope
    cases h : volumeDB.enter true fc with
    | error e => exact hacq
    | ok m => simp [volumeDB.exitFile, hacq]

/-- C8 witness: an aborted write scope over one concrete existing file leaves
it untouched. -/
theorem C8_amended_witness :
    volumeDB.scope true true (fun m => m)
        (FileContent.valid [("vol1", ⟨"img:latest", none⟩)]) =
      FileContent.valid [("vol1", ⟨"img:latest", none⟩)] :=
  C8_amended_thm.2.1 (fun m => m) (FileContent.valid [("vol1", ⟨"img:latest", none⟩)])
    (by decide)

/-- C9: the duplicate-create policy is always-overwrite, uniformly — for every
registry, every already-present name and arbitrary create inputs, the new
record replaces the old one and every other entry is untouched; no input is
ever rejected. -/
theorem C9_thm (m : Registry) (n i : String) (p : Option String)
    (_hexists : (List.lookup n m).isSome = true) :
    List.lookup n (volumeCreate n i p m) = some ⟨imageName i, some p⟩ ∧
      (∀ n2 : String, n2 ≠ n →
        List.lookup n2 (volumeCreate n i p m) = List.lookup n2 m) :=
  ⟨lookup_volumeCreate_self m n i p, fun n2 h => lookup_volumeCreate_ne m n n2 i p h⟩

/-- C9 witness: one concrete duplicate create overwrites and preserves the
unrelated entry. -/
theorem C9_witness :
    List.lookup "vol1" (volumeCreate "vol1" "other:2" none
        [("vol1", ⟨"old:1", none⟩), ("keep", ⟨"k:1", none⟩)]) =
        some ⟨imageName "other:2", some none⟩ ∧
      List.lookup "keep" (volumeCreate "vol1" "other:2" none
        [("vol1", ⟨"old:1", none⟩), ("keep", ⟨"k:1", none⟩)]) =
        List.lookup "keep" [("vol1", ⟨"old:1", none⟩), ("keep", ⟨"k:1", none⟩)] := by
  have h := C9_thm [("vol1", ⟨"old:1", none⟩), ("keep", ⟨"k:1", none⟩)]
    "vol1" "other:2" none (by decide)
  exact ⟨h.1, h.2 "keep" (by decide)⟩

/-- C10: the defaulting test of `imageName` is the presence of a colon
anywhere in the reference, not of a tag — a reference whose only colon sits in
a registry host-and-port component is stored unchanged, no tag appended. -/
theorem C10_thm :
    (∀ s : String, ':' ∈ s.data → imageName s = s) ∧
      (∀ s : String, ':' ∉ s.data → imageName s = s ++ ":latest") ∧
      (∀ (m : Registry) (n : String) (p : Option String),
        List.lookup n (volumeCreate n "registry:5000/alpine" p m) =
          some ⟨"registry:5000/alpine", some p⟩) := by
  refine ⟨fun s h => by simp [imageName, h], fun s h => by simp [imageName, h], ?_⟩
  intro m n p
  have h := lookup_volumeCreate_self m n "registry:5000/alpine" p
  rwa [show imageName "registry:5000/alpine" = "registry:5000/alpine" by decide] at h

/-- C10 witness: the host-and-port reference is kept, the bare one gains the
default tag. -/
theorem C10_witness :
    imageName "registry:5000/alpine" = "registry:5000/alpine" ∧
      imageName "alpine" = "alpine" ++ ":latest" :=
  ⟨C10_thm.1 "registry:5000/alpine" (by decide), C10_thm.2.1 "alpine" (by decide)⟩
